import Mathlib

/-
Verification of the buffered metrics-delivery pipeline of the
context-of-code laptop app, a shallow embedding of:
  src/sdk/config.py
  src/sdk/metrics_sdk.py  (MetricsBuffer, MetricsClient)
  src/client/metrics_buffer.py  (deque-based MetricsBuffer)
-/

namespace MetricsSDK

/-- Configuration constant MAX_RETRIES from src/sdk/config.py (line 18). -/
def MAX_RETRIES : Nat := 3

/-- Configuration constant RETRY_DELAY in seconds from src/sdk/config.py (line 19). -/
def RETRY_DELAY : Nat := 5

/-- Configuration constant BUFFER_SIZE from src/sdk/config.py (line 22). -/
def BUFFER_SIZE : Nat := 1000

/-- Kinds of Python exception arising on the transport and serialization
paths of src/sdk/metrics_sdk.py: requests.ConnectionError, requests.Timeout,
requests.HTTPError raised by response.raise_for_status (carrying the HTTP
status code), and AttributeError. -/
inductive PyExn : Type
  | connectionError : PyExn
  | timeout : PyExn
  | httpError (status : Nat) : PyExn
  | attributeError : PyExn
deriving DecidableEq, Repr

/-- MetricsClient._retry_if_connection_error (metrics_sdk.py lines 323-333):
retry exactly when the exception is a requests.ConnectionError or a
requests.Timeout; every other exception is not retried. -/
def retry_if_connection_error : PyExn → Bool
  | PyExn.connectionError => true
  | PyExn.timeout => true
  | _ => false

/-- Execution of the retrying.retry wrapper used by MetricsClient._send_metrics
(metrics_sdk.py lines 436-450), with stop_max_attempt_number as the fuel and
retry_on_exception as retryOn. transport i is the outcome of the i-th
transport call. Returns the final outcome, the number of transport calls
made, and the number of fixed wait_fixed delays slept between attempts.
retrying always makes at least one attempt; the fuel-0 case is unreachable
in the source, where max_retries is at least 1. -/
def retryLoop (retryOn : PyExn → Bool) (transport : Nat → Except PyExn α) :
    Nat → Nat → Except PyExn α × Nat × Nat
  | 0, _ => (Except.error PyExn.timeout, 0, 0)
  | 1, idx => (transport idx, 1, 0)
  | n + 2, idx =>
    match transport idx with
    | Except.ok a => (Except.ok a, 1, 0)
    | Except.error e =>
      if retryOn e then
        let r := retryLoop retryOn transport (n + 1) (idx + 1)
        (r.1, r.2.1 + 1, r.2.2 + 1)
      else (Except.error e, 1, 0)

/-- Whether an Except outcome is a success. -/
def exceptOk : Except PyExn α → Bool
  | Except.ok _ => true
  | Except.error _ => false

/-- MetricsClient._send_metrics (metrics_sdk.py lines 421-458): one
single-item POST wrapped in the retry policy; any RequestException left
after the retries is caught and reported as False to the caller rather
than raised. Returns the reported Bool together with the number of
transport calls made and the number of retry delays slept. -/
def _send_metrics (max_retries : Nat) (transport : Nat → Except PyExn α) :
    Bool × Nat × Nat :=
  let r := retryLoop retry_if_connection_error transport max_retries 0
  (exceptOk r.1, r.2.1, r.2.2)

lemma retryLoop_all_retryable_fail (retryOn : PyExn → Bool)
    (transport : Nat → Except PyExn α)
    (hfail : ∀ i, ∃ e, transport i = Except.error e ∧ retryOn e = true) :
    ∀ n idx, 1 ≤ n →
      exceptOk (retryLoop retryOn transport n idx).1 = false ∧
      (retryLoop retryOn transport n idx).2.1 = n ∧
      (retryLoop retryOn transport n idx).2.2 = n - 1 := by
  intro n
  induction n with
  | zero => intro idx h; omega
  | succ m ih =>
    intro idx _
    cases m with
    | zero =>
      obtain ⟨e, he, _⟩ := hfail idx
      simp [retryLoop, he, exceptOk]
    | succ k =>
      obtain ⟨e, he, hr⟩ := hfail idx
      obtain ⟨h1, h2, h3⟩ := ih (idx + 1) (by omega)
      simp only [retryLoop, he, hr, if_true]
      refine ⟨h1, by omega, by omega⟩

/-- C4: with a transport that raises a retryable error (timeout or
connection error) on every call, one invocation of the single-item
delivery _send_metrics makes exactly max_retries transport calls and then
reports failure (False) to the caller instead of raising. -/
theorem retry_bound_exact (max_retries : Nat) (transport : Nat → Except PyExn Unit)
    (hm : 1 ≤ max_retries)
    (hfail : ∀ i, ∃ e, transport i = Except.error e ∧
      retry_if_connection_error e = true) :
    (_send_metrics max_retries transport).1 = false ∧
    (_send_metrics max_retries transport).2.1 = max_retries := by
  obtain ⟨h1, h2, _⟩ :=
    retryLoop_all_retryable_fail retry_if_connection_error transport hfail max_retries 0 hm
  exact ⟨h1, h2⟩

/-- Witness for retry_bound_exact at the default MAX_RETRIES = 3 and an
always-timing-out transport. -/
theorem retry_bound_exact_wit :
    (_send_metrics MAX_RETRIES (fun _ => (Except.error PyExn.timeout : Except PyExn Unit))).1 = false ∧
    (_send_metrics MAX_RETRIES (fun _ => (Except.error PyExn.timeout : Except PyExn Unit))).2.1 = MAX_RETRIES :=
  retry_bound_exact MAX_RETRIES _ (by decide)
    (fun _ => ⟨PyExn.timeout, rfl, rfl⟩)

/-- C5: when the first transport call fails with a permanent
(non-connection, non-timeout) error such as an HTTP 400 response, the
single-item delivery makes exactly one transport call, sleeps no retry
delay, and reports failure immediately. -/
theorem nonretryable_single_call (max_retries : Nat)
    (transport : Nat → Except PyExn Unit) (e : PyExn)
    (hm : 1 ≤ max_retries)
    (he : transport 0 = Except.error e)
    (hperm : retry_if_connection_error e = false) :
    _send_metrics max_retries transport = (false, 1, 0) := by
  cases max_retries with
  | zero => omega
  | succ m =>
    cases m with
    | zero => simp [_send_metrics, retryLoop, he, exceptOk]
    | succ k => simp [_send_metrics, retryLoop, he, hperm, exceptOk]

/-- Witness for nonretryable_single_call: a transport answering HTTP 400
on its first call, with the default retry bound. -/
theorem nonretryable_single_call_wit :
    _send_metrics MAX_RETRIES
      (fun _ => (Except.error (PyExn.httpError 400) : Except PyExn Unit)) = (false, 1, 0) :=
  nonretryable_single_call MAX_RETRIES _ (PyExn.httpError 400) (by decide) rfl rfl

/-- MetricsBuffer from src/sdk/metrics_sdk.py (lines 201-269): a Python
list of entries plus max_size. The entry type is a parameter since the
Python list is untyped. -/
structure MetricsBuffer (α : Type) where
  buffer : List α
  max_size : Nat
deriving DecidableEq, Repr

/-- MetricsBuffer.__init__ together with _load_buffer (metrics_sdk.py lines
204-214 and 252-260): the parsed contents of the backing file replace the
buffer verbatim, with no truncation; max_size is config.BUFFER_SIZE. -/
def MetricsBuffer.loadFrom (data : List α) : MetricsBuffer α :=
  { buffer := data, max_size := BUFFER_SIZE }

/-- MetricsBuffer.add (metrics_sdk.py lines 216-228): when
len(buffer) >= max_size, pop the entry at index 0, then append the new
entry. list.pop(0) removes the head, which is List.tail; in the source the
popped list is nonempty because max_size is always BUFFER_SIZE = 1000. -/
def MetricsBuffer.add (b : MetricsBuffer α) (m : α) : MetricsBuffer α :=
  if b.max_size ≤ b.buffer.length then
    { b with buffer := b.buffer.tail ++ [m] }
  else
    { b with buffer := b.buffer ++ [m] }

/-- MetricsBuffer.clear (metrics_sdk.py lines 239-242). -/
def MetricsBuffer.clear (b : MetricsBuffer α) : MetricsBuffer α :=
  { b with buffer := [] }

/-- MetricsBuffer.get_all (metrics_sdk.py lines 230-237): the value of the
internal list. Object identity of the returned list is modelled separately
by ListHeap below. -/
def MetricsBuffer.get_all (b : MetricsBuffer α) : List α := b.buffer

/-- MetricsBuffer.__len__ (metrics_sdk.py lines 262-269). -/
def MetricsBuffer.size (b : MetricsBuffer α) : Nat := b.buffer.length

/-- One append to a collections.deque of the given maxlen
(src/client/metrics_buffer.py line 24): only the last maxlen elements are
kept, the leftmost being discarded first. -/
def dequeAppend (maxlen : Nat) (buf : List α) (m : α) : List α :=
  let b := buf ++ [m]
  b.drop (b.length - maxlen)

/-- deque.extend is element-by-element append, used by _load_buffer of
src/client/metrics_buffer.py (line 55). -/
def dequeExtend (maxlen : Nat) (buf : List α) (data : List α) : List α :=
  data.foldl (dequeAppend maxlen) buf

/-- Construction of the client-side buffer from the backing file
(src/client/metrics_buffer.py lines 13-15 and 49-57): an empty deque with
maxlen = config.BUFFER_SIZE, extended with the parsed file contents. -/
def clientLoad (data : List α) : List α :=
  dequeExtend BUFFER_SIZE [] data

lemma dequeAppend_length_le (maxlen : Nat) (buf : List α) (m : α) :
    (dequeAppend maxlen buf m).length ≤ maxlen := by
  simp only [dequeAppend, List.length_drop, List.length_append, List.length_singleton]
  omega

lemma dequeExtend_length_le (maxlen : Nat) (data : List α) :
    ∀ buf : List α, buf.length ≤ maxlen →
      (dequeExtend maxlen buf data).length ≤ maxlen := by
  induction data with
  | nil => intro buf h; simpa [dequeExtend] using h
  | cons d ds ih =>
    intro buf _
    have hstep := dequeAppend_length_le maxlen buf d
    simpa [dequeExtend, List.foldl_cons] using ih (dequeAppend maxlen buf d) hstep

/-- C2: on a buffer already holding exactly max_size entries, add evicts
exactly the entry at index 0 (the oldest) and no other, then appends the
new entry at the end; on a buffer holding fewer than max_size entries, add
evicts nothing. This holds both for the sdk list buffer and for the client
deque buffer at its fixed maxlen BUFFER_SIZE. In the source max_size is
always BUFFER_SIZE = 1000, hence positive. -/
theorem fifo_eviction {α : Type} (b : MetricsBuffer α) (m : α)
    (cbuf : List α) (c : α) (hpos : 0 < b.max_size) :
    (b.buffer.length = b.max_size → (b.add m).buffer = b.buffer.tail ++ [m]) ∧
    (b.buffer.length < b.max_size → (b.add m).buffer = b.buffer ++ [m]) ∧
    (cbuf.length = BUFFER_SIZE → dequeAppend BUFFER_SIZE cbuf c = cbuf.tail ++ [c]) ∧
    (cbuf.length < BUFFER_SIZE → dequeAppend BUFFER_SIZE cbuf c = cbuf ++ [c]) := by
  refine ⟨?_, ?_, ?_, ?_⟩
  · intro h
    simp [MetricsBuffer.add, h.ge]
  · intro h
    simp [MetricsBuffer.add, Nat.not_le.mpr h]
  · intro h
    have hdrop : cbuf.length + 1 - BUFFER_SIZE = 1 := by omega
    have hone : (1 : Nat) ≤ cbuf.length := by
      simp only [h]; decide
    simp only [dequeAppend, List.length_append, List.length_singleton, hdrop,
      List.drop_append_of_le_length hone, List.drop_one]
  · intro h
    have hdrop : cbuf.length + 1 - BUFFER_SIZE = 0 := by omega
    simp [dequeAppend, hdrop]

/-- Witness for fifo_eviction: a two-entry sdk buffer of max_size 2 and a
client deque holding exactly BUFFER_SIZE entries. -/
theorem fifo_eviction_wit :
    (([10, 20] : List Nat).length = 2 →
      ((⟨[10, 20], 2⟩ : MetricsBuffer Nat).add 30).buffer = ([10, 20] : List Nat).tail ++ [30]) ∧
    (([10, 20] : List Nat).length < 2 →
      ((⟨[10, 20], 2⟩ : MetricsBuffer Nat).add 30).buffer = [10, 20, 30]) ∧
    ((List.replicate BUFFER_SIZE (0 : Nat)).length = BUFFER_SIZE →
      dequeAppend BUFFER_SIZE (List.replicate BUFFER_SIZE (0 : Nat)) 3 =
        (List.replicate BUFFER_SIZE (0 : Nat)).tail ++ [3]) ∧
    ((List.replicate BUFFER_SIZE (0 : Nat)).length < BUFFER_SIZE →
      dequeAppend BUFFER_SIZE (List.replicate BUFFER_SIZE (0 : Nat)) 3 =
        List.replicate BUFFER_SIZE (0 : Nat) ++ [3]) :=
  fifo_eviction (⟨[10, 20], 2⟩ : MetricsBuffer Nat) 30
    (List.replicate BUFFER_SIZE (0 : Nat)) 3 (by decide)

/-- C8 counterexample: constructing the sdk buffer from a backing file
holding BUFFER_SIZE + 1 = 1001 entries yields a buffer of 1001 entries,
violating the claimed bound len(buffer) <= max_size. -/
theorem load_overflows_bound_cex :
    ¬ ((MetricsBuffer.loadFrom (List.replicate (BUFFER_SIZE + 1) (0 : Nat))).buffer.length ≤
        (MetricsBuffer.loadFrom (List.replicate (BUFFER_SIZE + 1) (0 : Nat))).max_size) := by
  simp only [MetricsBuffer.loadFrom, List.length_replicate]
  omega

/-- C8 amended: the bound 0 <= len <= max_size is preserved by add and
clear whenever it already holds and max_size is positive (in the source
max_size is always BUFFER_SIZE = 1000); the sdk construction however
adopts the backing file verbatim, so its length is bounded only by the
file itself, while the deque-based client buffer does enforce the bound
at load. -/
theorem buffer_bound_amended {α : Type} (b : MetricsBuffer α) (m : α)
    (data : List α) (hpos : 0 < b.max_size) (hb : b.buffer.length ≤ b.max_size) :
    (b.add m).buffer.length ≤ b.max_size ∧
    (b.clear).buffer.length ≤ b.max_size ∧
    (MetricsBuffer.loadFrom data : MetricsBuffer α).buffer.length = data.length ∧
    (clientLoad data).length ≤ BUFFER_SIZE := by
  refine ⟨?_, ?_, rfl, ?_⟩
  · unfold MetricsBuffer.add
    split
    · next hfull =>
      simp only [List.length_append, List.length_tail, List.length_singleton]
      omega
    · next hroom =>
      simp only [List.length_append, List.length_singleton]
      omega
  · simp [MetricsBuffer.clear]
  · exact dequeExtend_length_le BUFFER_SIZE data [] (by simp)

/-- Witness for buffer_bound_amended at a concrete one-entry buffer of
max_size 2 and a three-entry backing file. -/
theorem buffer_bound_amended_wit :
    (((⟨[5], 2⟩ : MetricsBuffer Nat).add 6).buffer.length ≤ 2) ∧
    ((⟨[5], 2⟩ : MetricsBuffer Nat).clear.buffer.length ≤ 2) ∧
    ((MetricsBuffer.loadFrom [1, 2, 3] : MetricsBuffer Nat).buffer.length = [1, 2, 3].length) ∧
    ((clientLoad [1, 2, 3] : List Nat).length ≤ BUFFER_SIZE) :=
  buffer_bound_amended (⟨[5], 2⟩ : MetricsBuffer Nat) 6 [1, 2, 3] (by decide) (by decide)

/-- Tiny heap of Python list objects, modelling object identity for the
buffer's backing list: cells maps an address to the list it holds, and
next is the next fresh address. -/
structure ListHeap (α : Type) where
  cells : Nat → List α
  next : Nat

/-- Contents of the list object at address a. -/
def ListHeap.read (h : ListHeap α) (a : Nat) : List α := h.cells a

/-- In-place update of the list object at address a. -/
def ListHeap.write (h : ListHeap α) (a : Nat) (l : List α) : ListHeap α :=
  { h with cells := fun b => if b = a then l else h.cells b }

/-- Allocation of a fresh list object holding l. -/
def ListHeap.alloc (h : ListHeap α) (l : List α) : Nat × ListHeap α :=
  (h.next,
   { cells := fun b => if b = h.next then l else h.cells b, next := h.next + 1 })

/-- get_all of src/sdk/metrics_sdk.py (lines 230-237): the statement
`return self.buffer` hands back the internal list object itself. bufAddr
is the address of the buffer's internal list; the result is the address
the caller receives together with the unchanged heap. -/
def get_all_sdk (h : ListHeap α) (bufAddr : Nat) : Nat × ListHeap α :=
  (bufAddr, h)

/-- get_all of src/client/metrics_buffer.py (lines 27-34): the expression
`list(self.buffer)` allocates a fresh list holding a copy of the deque's
contents. -/
def get_all_client (h : ListHeap α) (bufAddr : Nat) : Nat × ListHeap α :=
  h.alloc (h.read bufAddr)

/-- A caller mutating a list object it was handed, by appending one
element in place. -/
def mutListAppend (h : ListHeap α) (a : Nat) (x : α) : ListHeap α :=
  h.write a (h.read a ++ [x])

/-- Concrete heap whose address 0 holds the sdk buffer's internal
list [1, 2]. -/
def aliasHeap : ListHeap Nat :=
  { cells := fun a => if a = 0 then [1, 2] else [], next := 1 }

/-- C9 counterexample: for the sdk get_all, appending 3 to the returned
list changes the buffer's internal contents from [1, 2] to [1, 2, 3]; the
returned sequence is a mutable alias of the buffer's internal state. -/
theorem get_all_alias_cex :
    (mutListAppend (get_all_sdk aliasHeap 0).2 (get_all_sdk aliasHeap 0).1 3).read 0 ≠
      aliasHeap.read 0 := by
  decide

/-- C9 amended: get_all returns the current contents in insertion order
without removing any entry; the client/metrics_buffer.py version returns a
freshly allocated copy, so mutating its result leaves the buffer's
internal contents unchanged, while the sdk/metrics_sdk.py version returns
the internal list object itself, so its result aliases the buffer. -/
theorem get_all_no_alias_amended {α : Type} (h : ListHeap α) (a : Nat) (x : α)
    (ha : a < h.next) :
    ((get_all_sdk h a).2.read (get_all_sdk h a).1 = h.read a ∧ (get_all_sdk h a).2 = h) ∧
    ((get_all_client h a).2.read (get_all_client h a).1 = h.read a) ∧
    ((get_all_client h a).2.read a = h.read a) ∧
    ((mutListAppend (get_all_client h a).2 (get_all_client h a).1 x).read a = h.read a) := by
  have hne : a ≠ h.next := Nat.ne_of_lt ha
  refine ⟨⟨rfl, rfl⟩, ?_, ?_, ?_⟩ <;>
    simp [get_all_client, ListHeap.alloc, ListHeap.read, ListHeap.write,
      mutListAppend, hne]

/-- Witness for get_all_no_alias_amended on the concrete heap aliasHeap
at the valid address 0. -/
theorem get_all_no_alias_amended_wit :
    ((get_all_sdk aliasHeap 0).2.read (get_all_sdk aliasHeap 0).1 = aliasHeap.read 0 ∧
      (get_all_sdk aliasHeap 0).2 = aliasHeap) ∧
    ((get_all_client aliasHeap 0).2.read (get_all_client aliasHeap 0).1 = aliasHeap.read 0) ∧
    ((get_all_client aliasHeap 0).2.read 0 = aliasHeap.read 0) ∧
    ((mutListAppend (get_all_client aliasHeap 0).2 (get_all_client aliasHeap 0).1 7).read 0 =
      aliasHeap.read 0) :=
  get_all_no_alias_amended aliasHeap 0 7 (by decide)

/-- A measurement dictionary passed to MetricsClient.send_metrics
(metrics_sdk.py lines 557-574): the fields the code reads from the dict,
with none standing for a missing key. Values are modelled as rationals
since the code performs no arithmetic on them beyond the float() coercion;
metadata values are strings, on which str() is the identity, and the pair
list preserves insertion order. -/
structure MetricsData where
  name : Option String
  value : Option ℚ
  unit : Option String
  description : Option String
  timestamp : Option String
  metadata : List (String × String)
deriving DecidableEq, Repr

/-- The wire-format MetricCreate record built by send_metrics
(metrics_sdk.py lines 632-645). metadata = [] stands for the absent
metadata key, which the code omits when the measurement has none. -/
structure FormattedMetric where
  metric_type_id : String
  source_id : String
  value : ℚ
  recorded_at : String
  metadata : List (String × String)
deriving DecidableEq, Repr

/-- Requests the client issues to the server during one send_metrics call,
in order: the bulk POST of the flush step, the unit lookup/registration
round for a unit symbol, the metric-type create POST, and the single-item
POST (which stands for up to max_retries transport calls of the retry
wrapper). -/
inductive ServerCall : Type
  | bulkSend (metrics : List FormattedMetric) : ServerCall
  | unitOp (symbol : String) : ServerCall
  | createMetricType (name : String) : ServerCall
  | singleSend (m : FormattedMetric) : ServerCall
deriving DecidableEq, Repr

/-- Server-visible behaviour during one send_metrics round: whether the
bulk POST reports success, whether the metric-type create POST
round-trips, whether the single-item POST reports success after its
internal retries, and the current-time string used for absent timestamps. -/
structure ServerOracle where
  bulkOk : Bool
  createReachable : Bool
  singleOk : Bool
  now : String

/-- The MetricsClient state send_metrics touches: the buffer, the
metric-type name-to-id cache loaded by _load_metric_types, the source id
(always resolved during __init__ via _ensure_source, possibly as a
temporary uuid), and the configured source name. -/
structure ClientState where
  buffer : MetricsBuffer FormattedMetric
  metric_types : List (String × String)
  source_id : String
  source_name : String
deriving DecidableEq, Repr

/-- Deterministic model of str(uuid.uuid5(uuid.NAMESPACE_DNS, s)): uuid5
is a pure function of its input string. -/
def uuid5 (s : String) : String := "uuid5:" ++ s

/-- Python `x or default` for an optional string: both a missing key and
the empty string are falsy (metrics_sdk.py line 636). -/
def pyOrElse (s : Option String) (d : String) : String :=
  match s with
  | some t => if t = "" then d else t
  | none => d

/-- MetricsClient._ensure_metric_type (metrics_sdk.py lines 385-419) as a
function of the cache: a cache hit returns the cached id with no request;
a cache miss issues one create POST and then raises either way, because on
a round-trip the code calls response.json() on the already-parsed dict
returned by _make_request and dies with AttributeError before reaching its
cache-update line, and on a transport failure the exception propagates.
The cache is therefore never updated here. -/
def ensure_metric_type (o : ServerOracle) (cache : List (String × String))
    (name : String) : Except PyExn String × List ServerCall :=
  match cache.lookup name with
  | some tid => (Except.ok tid, [])
  | none =>
    if o.createReachable then
      (Except.error PyExn.attributeError, [ServerCall.createMetricType name])
    else
      (Except.error PyExn.connectionError, [ServerCall.createMetricType name])

/-- The opportunistic flush at the top of send_metrics (metrics_sdk.py
lines 575-580): when the buffer is nonempty, one bulk POST of its full
current contents is attempted, and the buffer is cleared exactly when that
call reports success. -/
def flushBuffer (o : ServerOracle) (b : MetricsBuffer FormattedMetric) :
    MetricsBuffer FormattedMetric × List ServerCall :=
  if 0 < b.size then
    (if o.bulkOk then b.clear else b, [ServerCall.bulkSend b.get_all])
  else (b, [])

/-- MetricsClient.send_metrics (metrics_sdk.py lines 557-670). Returns the
reported Bool, the client state after the call, and the ordered list of
server requests issued. The unit-registration round (lines 589-609) only
contributes a request and the unit id fed into the metric-type create
payload, falling back to a deterministic uuid5 on any failure; no field of
the wire record depends on it. The source id was resolved during __init__
and is reused (lines 504-512, 623-628). The final except branch of the
source (lines 656-670) is unreachable here because every failure on the
modelled paths is already handled inline. -/
def send_metrics (o : ServerOracle) (st : ClientState) (md : MetricsData) :
    Bool × ClientState × List ServerCall :=
  let f := flushBuffer o st.buffer
  let st1 : ClientState := { st with buffer := f.1 }
  match md.name with
  | none => (false, st1, f.2)
  | some name =>
    if name = "" then (false, st1, f.2)
    else
      let tUnit : List ServerCall :=
        match md.unit with
        | none => []
        | some sym => if sym = "" then [] else [ServerCall.unitOp sym]
      let mt := ensure_metric_type o st.metric_types name
      let fm : FormattedMetric :=
        { metric_type_id :=
            match mt.1 with
            | Except.ok tid => tid
            | Except.error _ => uuid5 name
          source_id := st.source_id
          value := md.value.getD 0
          recorded_at := pyOrElse md.timestamp o.now
          metadata := md.metadata }
      let tr := f.2 ++ tUnit ++ mt.2 ++ [ServerCall.singleSend fm]
      if o.singleOk then (true, st1, tr)
      else (false, { st1 with buffer := st1.buffer.add fm }, tr)

/-- The best-effort minimal record built by the final except branch of
send_metrics (metrics_sdk.py lines 660-666) for a measurement carrying the
given name. -/
def fallbackRecord (o : ServerOracle) (st : ClientState) (md : MetricsData)
    (name : String) : FormattedMetric :=
  { metric_type_id := uuid5 name
    source_id := uuid5 st.source_name
    value := md.value.getD 0
    recorded_at := o.now
    metadata := md.metadata }

/-- The metric_type_id send_metrics attaches for a given cache and name:
the cached id on a hit, and the deterministic uuid5 placeholder on a miss,
since _ensure_metric_type always raises on a miss. -/
def metricTypeIdFor (cache : List (String × String)) (name : String) : String :=
  (cache.lookup name).getD (uuid5 name)

/-- The wire record send_metrics builds and attempts for a measurement
with a valid name. -/
def sentRecord (o : ServerOracle) (st : ClientState) (md : MetricsData)
    (name : String) : FormattedMetric :=
  { metric_type_id := metricTypeIdFor st.metric_types name
    source_id := st.source_id
    value := md.value.getD 0
    recorded_at := pyOrElse md.timestamp o.now
    metadata := md.metadata }

/-- The trace of one send_metrics call on a measurement with a valid name. -/
def validTrace (o : ServerOracle) (st : ClientState) (md : MetricsData)
    (name : String) : List ServerCall :=
  (flushBuffer o st.buffer).2 ++
    (match md.unit with
     | none => []
     | some sym => if sym = "" then [] else [ServerCall.unitOp sym]) ++
    (ensure_metric_type o st.metric_types name).2 ++
    [ServerCall.singleSend (sentRecord o st md name)]

lemma metric_type_id_resolved (o : ServerOracle) (cache : List (String × String))
    (name : String) :
    (match (ensure_metric_type o cache name).1 with
      | Except.ok tid => tid
      | Except.error _ => uuid5 name) = metricTypeIdFor cache name := by
  unfold ensure_metric_type metricTypeIdFor
  cases cache.lookup name with
  | none => cases o.createReachable <;> simp
  | some tid => simp

lemma send_metrics_valid_eq (o : ServerOracle) (st : ClientState)
    (md : MetricsData) (name : String)
    (hname : md.name = some name) (hne : name ≠ "") :
    send_metrics o st md =
      (o.singleOk,
       { st with buffer :=
           if o.singleOk then (flushBuffer o st.buffer).1
           else ((flushBuffer o st.buffer).1).add (sentRecord o st md name) },
       validTrace o st md name) := by
  unfold send_metrics validTrace
  rw [hname]
  simp only [hne, if_neg, ite_false]
  have hid := metric_type_id_resolved o st.metric_types name
  cases hso : o.singleOk <;>
    simp [sentRecord, hid, Bool.false_eq_true, if_neg hne]

lemma send_metrics_invalid_eq (o : ServerOracle) (st : ClientState)
    (md : MetricsData) (h : md.name = none ∨ md.name = some "") :
    send_metrics o st md =
      (false, { st with buffer := (flushBuffer o st.buffer).1 },
       (flushBuffer o st.buffer).2) := by
  unfold send_metrics
  rcases h with h | h <;> rw [h] <;> simp

lemma flushBuffer_trace_shape (o : ServerOracle) (b : MetricsBuffer FormattedMetric) :
    (flushBuffer o b).2 = [] ∨ (flushBuffer o b).2 = [ServerCall.bulkSend b.get_all] := by
  unfold flushBuffer
  split
  · cases o.bulkOk <;> simp
  · simp

lemma flushBuffer_buffer_shape (o : ServerOracle) (b : MetricsBuffer FormattedMetric) :
    (flushBuffer o b).1.buffer = b.buffer ∨ (flushBuffer o b).1.buffer = [] := by
  unfold flushBuffer
  split
  · cases o.bulkOk <;> simp [MetricsBuffer.clear]
  · simp

lemma mem_add_self {α : Type} (b : MetricsBuffer α) (m : α) :
    m ∈ (b.add m).buffer := by
  unfold MetricsBuffer.add
  split <;> simp

/-- C1: for a measurement with a non-empty name, after send_metrics
returns, either the single-item delivery succeeded (and success is
reported), or the buffer contains a record equivalent to the measurement:
its value and metadata are preserved and its metric_type_id is the
client's deterministic resolution of the measurement's name (the cached
server id, or the uuid5 placeholder) - for every server behaviour. The
newly added record is never the one evicted, so this holds up to the FIFO
eviction of older entries only. -/
theorem no_loss_on_valid_name (o : ServerOracle) (st : ClientState)
    (md : MetricsData) (name : String)
    (hname : md.name = some name) (hne : name ≠ "") :
    (o.singleOk = true ∧ (send_metrics o st md).1 = true) ∨
    (∃ r ∈ (send_metrics o st md).2.1.buffer.buffer,
      r.value = md.value.getD 0 ∧ r.metadata = md.metadata ∧
      r.metric_type_id = metricTypeIdFor st.metric_types name) := by
  rw [send_metrics_valid_eq o st md name hname hne]
  cases hso : o.singleOk with
  | true => exact Or.inl ⟨rfl, rfl⟩
  | false =>
    refine Or.inr ⟨sentRecord o st md name, ?_, rfl, rfl, rfl⟩
    exact mem_add_self _ _

/-- C3: the opportunistic bulk flush inside send_metrics is
all-or-nothing: with a nonempty buffer, the flush step leaves the buffer
empty exactly when the bulk call reports success; the full current
contents are sent in one bulk POST; on bulk failure the buffer is left
exactly as it was, in the same order; and the new measurement's direct
delivery is still attempted. -/
theorem bulk_flush_all_or_nothing (o : ServerOracle) (st : ClientState)
    (md : MetricsData) (name : String)
    (hbuf : st.buffer.buffer ≠ []) (hname : md.name = some name) (hne : name ≠ "") :
    (((flushBuffer o st.buffer).1.buffer = []) ↔ o.bulkOk = true) ∧
    ServerCall.bulkSend st.buffer.get_all ∈ (flushBuffer o st.buffer).2 ∧
    (o.bulkOk = false → (flushBuffer o st.buffer).1 = st.buffer) ∧
    ServerCall.singleSend (sentRecord o st md name) ∈ (send_metrics o st md).2.2 := by
  have hpos : 0 < st.buffer.size := by
    simpa [MetricsBuffer.size] using List.length_pos.mpr hbuf
  refine ⟨?_, ?_, ?_, ?_⟩
  · unfold flushBuffer
    rw [if_pos hpos]
    cases hbo : o.bulkOk
    · simpa using hbuf
    · simp [MetricsBuffer.clear]
  · unfold flushBuffer
    rw [if_pos hpos]
    simp
  · intro hbo
    unfold flushBuffer
    rw [if_pos hpos, hbo]
    simp
  · rw [send_metrics_valid_eq o st md name hname hne]
    simp [validTrace]

/-- A wire record used by the concrete counterexample states. -/
def cexEntry : FormattedMetric :=
  { metric_type_id := "mt0", source_id := "s0", value := 7,
    recorded_at := "t0", metadata := [] }

/-- A client state holding one buffered record and a cold metric-type
cache. -/
def cexState : ClientState :=
  { buffer := { buffer := [cexEntry], max_size := BUFFER_SIZE },
    metric_types := [], source_id := "src0", source_name := "host0" }

/-- A server behaviour whose bulk endpoint fails while everything else
succeeds. -/
def cexOracle : ServerOracle :=
  { bulkOk := false, createReachable := true, singleOk := true, now := "t1" }

/-- A measurement dictionary with no name key. -/
def cexNoName : MetricsData :=
  { name := none, value := some 5, unit := none, description := none,
    timestamp := none, metadata := [] }

/-- C6 counterexample: on a nameless measurement with a nonempty buffer,
send_metrics does reject with failure, but only after performing the
opportunistic bulk flush: the trace of the rejecting call contains the
bulk POST, so the rejection is not the first step taken before the flush. -/
theorem reject_after_flush_cex :
    (send_metrics cexOracle cexState cexNoName).1 = false ∧
    (send_metrics cexOracle cexState cexNoName).2.2 =
      [ServerCall.bulkSend [cexEntry]] := by
  constructor <;> rfl

/-- C6 amended: a measurement with a missing or empty name is rejected
with failure after the opportunistic bulk flush (which still runs first)
but before any work on the measurement itself: no unit registration, no
metric-type create and no single-item delivery appears in the trace, it is
never retried, and the buffer gains no entry for it - the final buffer is
either the prior buffer or the empty buffer left by a successful flush. -/
theorem reject_invalid_name_amended (o : ServerOracle) (st : ClientState)
    (md : MetricsData) (h : md.name = none ∨ md.name = some "") :
    (send_metrics o st md).1 = false ∧
    (∀ fm, ServerCall.singleSend fm ∉ (send_metrics o st md).2.2) ∧
    (∀ n, ServerCall.createMetricType n ∉ (send_metrics o st md).2.2) ∧
    (∀ s, ServerCall.unitOp s ∉ (send_metrics o st md).2.2) ∧
    ((send_metrics o st md).2.1.buffer.buffer = st.buffer.buffer ∨
      (send_metrics o st md).2.1.buffer.buffer = []) := by
  rw [send_metrics_invalid_eq o st md h]
  have htr := flushBuffer_trace_shape o st.buffer
  refine ⟨rfl, ?_, ?_, ?_, ?_⟩
  · intro fm
    rcases htr with htr | htr <;> simp [htr]
  · intro n
    rcases htr with htr | htr <;> simp [htr]
  · intro s
    rcases htr with htr | htr <;> simp [htr]
  · exact flushBuffer_buffer_shape o st.buffer

/-- Witness for reject_invalid_name_amended at the concrete inputs of the
counterexample. -/
theorem reject_invalid_name_amended_wit :
    (send_metrics cexOracle cexState cexNoName).1 = false ∧
    (∀ fm, ServerCall.singleSend fm ∉ (send_metrics cexOracle cexState cexNoName).2.2) ∧
    (∀ n, ServerCall.createMetricType n ∉ (send_metrics cexOracle cexState cexNoName).2.2) ∧
    (∀ s, ServerCall.unitOp s ∉ (send_metrics cexOracle cexState cexNoName).2.2) ∧
    ((send_metrics cexOracle cexState cexNoName).2.1.buffer.buffer = cexState.buffer.buffer ∨
      (send_metrics cexOracle cexState cexNoName).2.1.buffer.buffer = []) :=
  reject_invalid_name_amended cexOracle cexState cexNoName (Or.inl rfl)

/-- A client state with an empty buffer and a cold metric-type cache. -/
def coldState : ClientState :=
  { buffer := { buffer := [], max_size := BUFFER_SIZE },
    metric_types := [], source_id := "src0", source_name := "host0" }

/-- A server behaviour accepting every request. -/
def okOracle : ServerOracle :=
  { bulkOk := true, createReachable := true, singleOk := true, now := "t1" }

/-- A measurement dictionary for the metric named battery. -/
def batteryMd : MetricsData :=
  { name := some "battery", value := some 42, unit := none, description := none,
    timestamp := none, metadata := [] }

/-- C7 at its failing input: two send_metrics calls for the name battery
against a cold cache, with a server that accepts every request. Each call
issues its own metric-type create POST - two in total - and the cache is
still empty afterwards, because _ensure_metric_type calls response.json()
on the already-parsed response dict and dies with AttributeError before
its cache-update line ever runs, so the id of a successful create is never
cached and the second call cannot reuse it. -/
theorem duplicate_create_requests :
    ((send_metrics okOracle coldState batteryMd).2.2 ++
        (send_metrics okOracle
          (send_metrics okOracle coldState batteryMd).2.1 batteryMd).2.2).count
      (ServerCall.createMetricType "battery") = 2 ∧
    (send_metrics okOracle
      (send_metrics okOracle coldState batteryMd).2.1 batteryMd).2.1.metric_types = [] := by
  constructor <;> rfl

/-- C10: a measurement with a non-empty name but no value key is not
rejected: the reported outcome is exactly the single-send outcome, the
wire record that is attempted (and buffered when delivery fails) carries
value 0, and the best-effort fallback record of the except branch carries
value 0 as well - an absent value is silently coerced to zero. -/
theorem missing_value_defaults_zero (o : ServerOracle) (st : ClientState)
    (md : MetricsData) (name : String)
    (hname : md.name = some name) (hne : name ≠ "") (hval : md.value = none) :
    (send_metrics o st md).1 = o.singleOk ∧
    (sentRecord o st md name).value = 0 ∧
    ServerCall.singleSend (sentRecord o st md name) ∈ (send_metrics o st md).2.2 ∧
    (o.singleOk = false →
      sentRecord o st md name ∈ (send_metrics o st md).2.1.buffer.buffer) ∧
    (fallbackRecord o st md name).value = 0 := by
  rw [send_metrics_valid_eq o st md name hname hne]
  refine ⟨rfl, by simp [sentRecord, hval], by simp [validTrace], ?_,
    by simp [fallbackRecord, hval]⟩
  intro hso
  rw [hso]
  exact mem_add_self _ _

/-- A measurement dictionary named battery with no value key. -/
def noValueMd : MetricsData :=
  { name := some "battery", value := none, unit := none, description := none,
    timestamp := none, metadata := [("k", "v")] }

/-- A server behaviour on which every delivery fails with the buffer
reachable: bulk fails and the single-item POST fails. -/
def failOracle : ServerOracle :=
  { bulkOk := false, createReachable := false, singleOk := false, now := "t1" }

/-- Witness for no_loss_on_valid_name: a failing server, so the record
lands in the buffer. -/
theorem no_loss_on_valid_name_wit :
    (failOracle.singleOk = true ∧ (send_metrics failOracle cexState noValueMd).1 = true) ∨
    (∃ r ∈ (send_metrics failOracle cexState noValueMd).2.1.buffer.buffer,
      r.value = noValueMd.value.getD 0 ∧ r.metadata = noValueMd.metadata ∧
      r.metric_type_id = metricTypeIdFor cexState.metric_types "battery") :=
  no_loss_on_valid_name failOracle cexState noValueMd "battery" rfl (by decide)

/-- Witness for bulk_flush_all_or_nothing: one buffered entry and a
failing bulk endpoint. -/
theorem bulk_flush_all_or_nothing_wit :
    (((flushBuffer failOracle cexState.buffer).1.buffer = []) ↔ failOracle.bulkOk = true) ∧
    ServerCall.bulkSend cexState.buffer.get_all ∈ (flushBuffer failOracle cexState.buffer).2 ∧
    (failOracle.bulkOk = false → (flushBuffer failOracle cexState.buffer).1 = cexState.buffer) ∧
    ServerCall.singleSend (sentRecord failOracle cexState batteryMd "battery") ∈
      (send_metrics failOracle cexState batteryMd).2.2 :=
  bulk_flush_all_or_nothing failOracle cexState batteryMd "battery"
    (by decide) rfl (by decide)

/-- Witness for missing_value_defaults_zero: the battery measurement with
no value key against the failing server. -/
theorem missing_value_defaults_zero_wit :
    (send_metrics failOracle cexState noValueMd).1 = failOracle.singleOk ∧
    (sentRecord failOracle cexState noValueMd "battery").value = 0 ∧
    ServerCall.singleSend (sentRecord failOracle cexState noValueMd "battery") ∈
      (send_metrics failOracle cexState noValueMd).2.2 ∧
    (failOracle.singleOk = false →
      sentRecord failOracle cexState noValueMd "battery" ∈
        (send_metrics failOracle cexState noValueMd).2.1.buffer.buffer) ∧
    (fallbackRecord failOracle cexState noValueMd "battery").value = 0 :=
  missing_value_defaults_zero failOracle cexState noValueMd "battery" rfl (by decide) rfl

end MetricsSDK
